import Mathlib

/-!
Shallow embedding of the fraud-screening module (`server/lib/security/fraud`)
of the opencollective-api repository, with theorems checking the
natural-language specification against the code.

Modelling conventions:
* JavaScript numbers are modelled as rationals (`ℚ`).
* SQL `NULL` and JavaScript `undefined` are modelled as `Option`.
* Promises are modelled by explicit outcome values (`Except`, `Bool` for
  "the promise rejects"); the side effects a call performs are collected in
  an explicit trace record.
* The mutable `args` array shared by the closures of `makeStatLimitChecker`
  is modelled by threading the grown list through the recursion.
-/

namespace Fraud

/-- Result row of the fraud statistics queries (`FraudStats` in the source). -/
structure FraudStats where
  errorRate : ℚ
  numberOfOrders : ℚ
  paymentMethodRate : ℚ
  deriving DecidableEq, Repr

/-- One configured limit tuple `[interval, maxOrders, maxErrorRate,
maxPaymentMethodRate]` (an entry of the JSON-parsed `limitParams` list). -/
structure LimitRule where
  interval : String
  maxOrders : ℚ
  maxErrorRate : ℚ
  maxPaymentMethodRate : ℚ
  deriving DecidableEq, Repr

/-- Credit-card details carried on a payment method (`creditCardInfo` in the
source).  `funding` is absent from the TypeScript annotation but is read by
`pick` at runtime, so it is kept as an optional field. -/
structure CreditCardInfo where
  expYear : Nat
  expMonth : Nat
  brand : Option String
  fingerprint : Option String
  funding : Option String
  deriving DecidableEq, Repr

/-- Values that can appear in the `args` array handed to `validateStat`: the
subject in head position, plus the interval strings pushed onto the same
array by `makeStatLimitChecker`. -/
inductive JSVal where
  | vStr : String → JSVal
  | vNum : ℚ → JSVal
  | vUser : Nat → JSVal
  | vCard : String → CreditCardInfo → JSVal
  deriving DecidableEq, Repr

/-- A statistics function (`getUserStats`, `getIpStats`, `getEmailStats`,
`getCreditCardStats`): two formal parameters `(subject, interval)`; an absent
argument binds to `none` (JavaScript `undefined`). -/
def StatOracle : Type := Option JSVal → Option JSVal → FraudStats

/-- The comparison vector `[stat.numberOfOrders, stat.errorRate,
stat.paymentMethodRate]` (`statArray` in `makeStatLimitChecker`). -/
def statArray (s : FraudStats) : List ℚ :=
  [s.numberOfOrders, s.errorRate, s.paymentMethodRate]

/-- The limits part of a limit tuple, in order, as destructured by
`const [interval, ...limits] = limitParams`. -/
def ruleLimits (r : LimitRule) : List ℚ :=
  [r.maxOrders, r.maxErrorRate, r.maxPaymentMethodRate]

/-- Evaluation of one rule against one stats row:
`limits.every((limit, index) => limit <= statArray[index])`.
Both lists have length 3, so the `getD` default is never consulted. -/
def ruleViolated (s : FraudStats) (r : LimitRule) : Bool :=
  (ruleLimits r).enum.all fun p => decide (p.2 ≤ (statArray s).getD p.1 0)

/-- One statistics invocation `statFn(...args)`: JavaScript binds the two
formal parameters `(subject, interval)` to the first two elements of the
spread argument array and silently ignores any further elements. -/
def callStats (oracle : StatOracle) (callArgs : List JSVal) : FraudStats :=
  oracle callArgs[0]? callArgs[1]?

/-- Execution of `limitParams.map(assertLimit)` inside `validateStat`, where
`assertLimit = makeStatLimitChecker(statFn, args)`: each iteration performs
`args.push(interval)` on the shared `args` array and then calls
`statFn(...args)` with the array as it stands at that moment.  Returns, per
rule in order, the argument array at call time, the stats obtained, and the
rule itself. -/
def runAssertLimits (oracle : StatOracle) :
    List JSVal → List LimitRule → List (List JSVal × FraudStats × LimitRule)
  | _, [] => []
  | args, r :: rest =>
    let pushed := args ++ [JSVal.vStr r.interval]
    (pushed, callStats oracle pushed, r) :: runAssertLimits oracle pushed rest

/-- Whether an entry of the trace of `runAssertLimits` throws inside
`assertLimit` (the `if (fail) throw` branch). -/
def entryViolated (e : List JSVal × FraudStats × LimitRule) : Bool :=
  ruleViolated e.2.1 e.2.2

/-- Whether `Promise.all(limitParams.map(assertLimit))` rejects: at least one
per-rule check threw. -/
def anyViolation (oracle : StatOracle) (args : List JSVal)
    (rules : List LimitRule) : Bool :=
  (runAssertLimits oracle args rules).any entryViolated

/-- Asset kinds (`AssetType` from `models/SuspendedAsset`). -/
inductive AssetType where
  | USER
  | CREDIT_CARD
  | IP
  | EMAIL_ADDRESS
  deriving DecidableEq, Repr

/-- The `assetParams` option of `validateStat`: type plus fingerprint. -/
structure AssetParams where
  type : AssetType
  fingerprint : String
  deriving DecidableEq, Repr

/-- Row written by `SuspendedAsset.create({ ...options.assetParams, reason })`.
When `assetParams` is `undefined` the spread contributes nothing, hence the
optional fields. -/
structure SuspensionRecord where
  rtype : Option AssetType
  rfingerprint : Option String
  reason : String
  deriving DecidableEq, Repr

/-- The `options` argument of `validateStat` (`ValidateStatOptions`).
`preCheck`, when present, is a caller-supplied precheck: `some true` models
one whose promise rejects, `some false` one that fulfills.  `onFail`, when
present, is a caller-supplied failure handler; the Bool records whether the
promise it returns rejects.  Both are typed to return `Promise<void>`, and a
Promise object is always truthy, so mere presence decides the two `||`
short-circuits in the source. -/
structure VStatOptions where
  onFail : Option Bool
  preCheck : Option Bool
  assetParams : Option AssetParams
  deriving DecidableEq, Repr

/-- Errors that `validateStat` can propagate. -/
inductive FraudError where
  | suspendedAsset : Option AssetParams → FraudError
  | preCheckFailed : FraudError
  | validationFailed : String → FraudError
  deriving DecidableEq, Repr

/-- Contents of the suspended-asset store, as a set of
(type, fingerprint) pairs. -/
abbrev SuspendedStore : Type := List (AssetType × String)

/-- Modelled from the spec: `SuspendedAsset.assertAssetIsNotSuspended` lives
in `models/SuspendedAsset`, which is not among the sources.  Per the spec the
store supports `exists(type, fingerprint) -> bool` and the precheck must
"verify the asset is not already suspended (consult SuspendedAssetStore) and
abort that check immediately with a rejection if so".  Returns the rejection
when the asset's (type, fingerprint) pair is in the store. -/
def assertAssetIsNotSuspended (store : SuspendedStore)
    (params : Option AssetParams) : Option FraudError :=
  match params with
  | some ap =>
    if (ap.type, ap.fingerprint) ∈ store then
      some (FraudError.suspendedAsset (some ap))
    else none
  | none => none

/-- The precheck block at the top of `validateStat`:
`if (ENFORCE_SUSPENDED_ASSET && (options.assetParams || options.preCheck))`.
A present `options.preCheck` yields a (truthy) promise from
`options.preCheck?.()`, so `assertAssetIsNotSuspended` runs only when it is
absent.  Returns the precheck rejection, if any, paired with whether the
suspended-asset store was consulted. -/
def runPrecheck (enforce : Bool) (store : SuspendedStore)
    (options : VStatOptions) : Option FraudError × Bool :=
  if enforce && (options.assetParams.isSome || options.preCheck.isSome) then
    match options.preCheck with
    | some rejects =>
      (if rejects then some FraudError.preCheckFailed else none, false)
    | none => (assertAssetIsNotSuspended store options.assetParams, true)
  else (none, false)

/-- Rendering of a rational in a message; stands in for JavaScript number
formatting, which no claim depends on. -/
def ratToStr (q : ℚ) : String := reprStr q

/-- JavaScript `Array.prototype.join()` with the default comma separator. -/
def jsJoinComma : List String → String
  | [] => ""
  | [s] => s
  | s :: rest => s ++ "," ++ jsJoinComma rest

/-- The four components of a limit tuple as they appear in
`limitParams.join()`. -/
def limitTupleStrings (r : LimitRule) : List String :=
  [r.interval, ratToStr r.maxOrders, ratToStr r.maxErrorRate,
   ratToStr r.maxPaymentMethodRate]

/-- Message of the error thrown inside `assertLimit` when a rule fails. -/
def assertErrorMessage (s : FraudStats) (r : LimitRule) : String :=
  "Stat " ++ jsJoinComma ((statArray s).map ratToStr) ++ " above treshold "
    ++ jsJoinComma (limitTupleStrings r)

/-- Message of the `ValidationFailed` error built in the catch block. -/
def validationMessage (errorMessage : String) (s : FraudStats)
    (r : LimitRule) : String :=
  errorMessage ++ ": " ++ assertErrorMessage s r

/-- Observable result of one `validateStat` call: the side effects it
performed and its outcome.
* `storeConsulted`: the suspended-asset store existence check ran;
* `statCalls`: the argument array of each statistics invocation, in order;
* `warnings`: messages passed to `logger.warn`;
* `errorLogs`: messages passed to `logger.error` by `onFail.catch`;
* `onFailCalledWith`: the error handed to a caller-supplied `onFail`;
* `storeWrites`: suspension records written by `validateStat` itself via
  `SuspendedAsset.create` (attempted, whether or not the write succeeds);
* `outcome`: fulfilled, or rejected with an error. -/
structure ValidateResult where
  storeConsulted : Bool
  statCalls : List (List JSVal)
  warnings : List String
  errorLogs : List String
  onFailCalledWith : Option FraudError
  storeWrites : List SuspensionRecord
  outcome : Except FraudError Unit
  deriving Repr

/-- The body of `validateStat`.  Inputs beyond the source signature:
`enforce` is the config flag `ENFORCE_SUSPENDED_ASSET`, `store` the
suspended-asset table consulted by the precheck, `createRejects` whether the
`SuspendedAsset.create` promise rejects, and `oracle` the statistics
function.  `Promise.all` rejects with the error of a violated rule;
`find?` picks the first violated rule in list order as the determinization
of "first rejection". -/
def validateStat (enforce : Bool) (store : SuspendedStore)
    (createRejects : Bool) (oracle : StatOracle) (args : List JSVal)
    (limitParams : List LimitRule) (errorMessage : String)
    (options : VStatOptions) : ValidateResult :=
  let pre := runPrecheck enforce store options
  match pre.1 with
  | some e =>
    { storeConsulted := pre.2, statCalls := [], warnings := [],
      errorLogs := [], onFailCalledWith := none, storeWrites := [],
      outcome := Except.error e }
  | none =>
    let trace := runAssertLimits oracle args limitParams
    let calls := trace.map (·.1)
    match trace.find? entryViolated with
    | none =>
      { storeConsulted := pre.2, statCalls := calls, warnings := [],
        errorLogs := [], onFailCalledWith := none, storeWrites := [],
        outcome := Except.ok () }
    | some entry =>
      let msg := validationMessage errorMessage entry.2.1 entry.2.2
      let err := FraudError.validationFailed msg
      match options.onFail with
      | some rejects =>
        { storeConsulted := pre.2, statCalls := calls, warnings := [msg],
          errorLogs := if rejects then ["suspension write failed"] else [],
          onFailCalledWith := some err, storeWrites := [],
          outcome := if enforce then Except.error err else Except.ok () }
      | none =>
        { storeConsulted := pre.2, statCalls := calls, warnings := [msg],
          errorLogs := if createRejects then ["suspension write failed"] else [],
          onFailCalledWith := none,
          storeWrites := [{ rtype := options.assetParams.map (·.type),
                            rfingerprint := options.assetParams.map (·.fingerprint),
                            reason := msg }],
          outcome := if enforce then Except.error err else Except.ok () }

/-- JavaScript truthiness of an optional string: `undefined` and the empty
string are falsy. -/
def jsTruthyStr : Option String → Bool
  | none => false
  | some s => !(s == "")

/-- Lodash `toLower`, modelled as character-wise lowercasing. -/
def jsToLower (s : String) : String := ⟨s.data.map Char.toLower⟩

/-- The `assetParams` built by `checkUser`: `toString(user.id)` renders the
numeric id in decimal. -/
def checkUserAssetParams (userId : Nat) : AssetParams :=
  { type := AssetType.USER, fingerprint := Nat.repr userId }

/-- The `assetParams` built by `checkEmail`: the fingerprint is
`toLower(email)`. -/
def checkEmailAssetParams (email : String) : AssetParams :=
  { type := AssetType.EMAIL_ADDRESS, fingerprint := jsToLower email }

/-- The `assetParams` built by `checkIP`. -/
def checkIpAssetParams (ip : String) : AssetParams :=
  { type := AssetType.IP, fingerprint := ip }

/-- Values extracted by
`Object.values(pick(creditCardInfo, ['brand', 'expMonth', 'expYear', 'funding']))`:
the listed keys that are present, in list order; `join` renders the numeric
`expMonth`/`expYear` in decimal. -/
def pickedCardValues (info : CreditCardInfo) : List String :=
  (match info.brand with | some b => [b] | none => [])
    ++ [Nat.repr info.expMonth, Nat.repr info.expYear]
    ++ (match info.funding with | some f => [f] | none => [])

/-- JavaScript `Array.prototype.join('-')`. -/
def jsJoinDash : List String → String
  | [] => ""
  | [s] => s
  | s :: rest => s ++ "-" ++ jsJoinDash rest

/-- The fingerprint built by `checkCreditCard`:
`creditCardInfo.fingerprint || [name, ...pickedValues].join('-')`; an
explicit fingerprint token is used when truthy (defined and non-empty),
otherwise the derived join. -/
def cardFingerprint (name : String) (info : CreditCardInfo) : String :=
  if jsTruthyStr info.fingerprint then info.fingerprint.getD ""
  else jsJoinDash (name :: pickedCardValues info)

/-- The `assetParams` built by `checkCreditCard`. -/
def checkCreditCardAssetParams (name : String) (info : CreditCardInfo) :
    AssetParams :=
  { type := AssetType.CREDIT_CARD, fingerprint := cardFingerprint name info }

/-- The `guestInfo` part of an order. -/
structure GuestInfo where
  email : Option String
  deriving DecidableEq, Repr

/-- The `paymentMethod` part of an order. -/
structure PaymentMethodInput where
  pmtype : String
  name : String
  creditCardInfo : Option CreditCardInfo
  deriving DecidableEq, Repr

/-- The order argument of `orderFraudProtection`. -/
structure OrderInput where
  guestInfo : Option GuestInfo
  paymentMethod : Option PaymentMethodInput
  deriving DecidableEq, Repr

/-- The parts of the Express request read by `orderFraudProtection`:
`const { remoteUser, ip } = req`.  The remote user is identified by id. -/
structure RequestInput where
  remoteUser : Option Nat
  ip : Option String
  deriving DecidableEq, Repr

/-- The per-dimension checks that `orderFraudProtection` can push onto its
`checks` list. -/
inductive CheckKind where
  | ipCheck : String → CheckKind
  | cardCheck : PaymentMethodInput → CheckKind
  | userCheck : Nat → CheckKind
  | emailCheck : String → CheckKind
  deriving DecidableEq, Repr

/-- The checklist built by `orderFraudProtection`: `if (ip)` pushes the IP
check; `if (order.paymentMethod?.creditCardInfo)` the card check;
`if (remoteUser)` the user check, `else if (order?.guestInfo?.email)` the
email check. -/
def orderFraudProtectionChecks (req : RequestInput) (order : OrderInput) :
    List CheckKind :=
  (match req.ip with
   | some s => if s ≠ "" then [CheckKind.ipCheck s] else []
   | none => [])
  ++ (match order.paymentMethod with
      | some pm =>
        match pm.creditCardInfo with
        | some _ => [CheckKind.cardCheck pm]
        | none => []
      | none => [])
  ++ (match req.remoteUser with
      | some u => [CheckKind.userCheck u]
      | none =>
        match order.guestInfo with
        | some gi =>
          match gi.email with
          | some e => if e ≠ "" then [CheckKind.emailCheck e] else []
          | none => []
        | none => [])

/-- SQL `LIKE` pattern matching over character lists: `%` matches any
sequence, an underscore any single character. -/
def likeMatch : List Char → List Char → Bool
  | [], s => s.isEmpty
  | p :: ps, s =>
    if p = '%' then
      likeMatch ps s ||
        (match s with
         | [] => false
         | _ :: s2 => likeMatch ('%' :: ps) s2)
    else
      match s with
      | [] => false
      | c :: s2 => (p = '_' || p = c) && likeMatch ps s2
termination_by p s => (p.length, s.length)

/-- SQL `value LIKE pattern`. -/
def sqlLike (value pattern : String) : Bool := likeMatch pattern.data value.data

/-- SQL `COALESCE(x, d)`. -/
def sqlCoalesce (x : Option ℚ) (d : ℚ) : ℚ := x.getD d

/-- SQL `NULLIF(a, b)`. -/
def sqlNullIf (a b : ℚ) : Option ℚ := if a = b then none else some a

/-- SQL `AVG` over a column: `NULL` on an empty set. -/
def sqlAvg (xs : List ℚ) : Option ℚ :=
  if xs.isEmpty then none else some (xs.sum / xs.length)

/-- SQL division with a possibly `NULL` divisor: `NULL` propagates. -/
def sqlDivOpt (a : ℚ) (b : Option ℚ) : Option ℚ := b.map fun d => a / d

/-- SQL `ROUND(q, 5)` on numerics: half away from zero. -/
def sqlRound5 (q : ℚ) : ℚ :=
  if 0 ≤ q then ((⌊q * 100000 + 1 / 2⌋ : ℤ) : ℚ) / 100000
  else -(((⌊-q * 100000 + 1 / 2⌋ : ℤ) : ℚ) / 100000)

/-- SQL `CONCAT` of two possibly `NULL` strings: `NULL` arguments contribute
the empty string and the result is never `NULL`. -/
def sqlConcat2 (a b : Option String) : String := a.getD "" ++ b.getD ""

/-- SQL `COUNT(DISTINCT expr)` over non-`NULL` string values. -/
def countDistinct (xs : List String) : ℚ := xs.dedup.length

/-- One row of the `FROM "Orders" o LEFT JOIN "PaymentMethods" pm` product
(for `getEmailStats`, also `LEFT JOIN "Users" u`): the order columns the
queries read plus the joined payment-method and user columns, `none` when
the join found no row or the column is `NULL`.  `createdAt` is a timestamp
on an abstract rational timeline. -/
structure OrderRow where
  createdByUserId : Option Nat
  deletedAt : Option ℚ
  status : String
  reqIp : Option String
  createdAt : ℚ
  pmType : Option String
  pmName : Option String
  pmExpYear : Option String
  pmExpMonth : Option String
  pmCountry : Option String
  userEmail : Option String
  deriving DecidableEq, Repr

/-- The aggregate row of `BASE_STATS_QUERY` over the rows matched by the
`WHERE` clause:
`errorRate` is `ROUND(COALESCE(AVG(CASE WHEN status = 'ERROR' THEN 1 ELSE 0 END), 0), 5)`,
`numberOfOrders` is `COUNT(*)`, and `paymentMethodRate` is
`COALESCE(COUNT(DISTINCT CONCAT(name, expYear)) / NULLIF(COUNT(*), 0), 0)`. -/
def baseStats (rows : List OrderRow) : FraudStats :=
  { errorRate :=
      sqlRound5 (sqlCoalesce
        (sqlAvg (rows.map fun r => if r.status = "ERROR" then 1 else 0)) 0)
    numberOfOrders := rows.length
    paymentMethodRate :=
      sqlCoalesce
        (sqlDivOpt (countDistinct (rows.map fun r => sqlConcat2 r.pmName r.pmExpYear))
          (sqlNullIf rows.length 0)) 0 }

/-- The optional trailing-interval clause
`ifStr(interval, 'AND o."createdAt" >= NOW() - INTERVAL :interval')`: added
only when `interval` is truthy.  `dur` interprets interval strings as
durations and `now` is the database clock. -/
def rowInInterval (dur : String → ℚ) (now : ℚ) (interval : Option String)
    (r : OrderRow) : Bool :=
  match interval with
  | some i => if i ≠ "" then decide (now - dur i ≤ r.createdAt) else true
  | none => true

/-- The `WHERE` clause of `getUserStats`. -/
def userStatsWhere (dur : String → ℚ) (now : ℚ) (userId : Nat)
    (interval : Option String) (r : OrderRow) : Bool :=
  r.createdByUserId == some userId && r.deletedAt == none
    && r.pmType == some "creditcard" && rowInInterval dur now interval r

/-- The statistics query issued by `getUserStats`. -/
def getUserStats (dur : String → ℚ) (now : ℚ) (table : List OrderRow)
    (userId : Nat) (interval : Option String) : FraudStats :=
  baseStats (table.filter (userStatsWhere dur now userId interval))

/-- The `WHERE` clause of `getEmailStats`:
`LOWER(u."email") LIKE LOWER(:email)`; a `NULL` joined email matches
nothing. -/
def emailStatsWhere (dur : String → ℚ) (now : ℚ) (email : String)
    (interval : Option String) (r : OrderRow) : Bool :=
  (match r.userEmail with
   | some ue => sqlLike (jsToLower ue) (jsToLower email)
   | none => false)
    && r.deletedAt == none && r.pmType == some "creditcard"
    && rowInInterval dur now interval r

/-- The statistics query issued by `getEmailStats`. -/
def getEmailStats (dur : String → ℚ) (now : ℚ) (table : List OrderRow)
    (email : String) (interval : Option String) : FraudStats :=
  baseStats (table.filter (emailStatsWhere dur now email interval))

/-- The `WHERE` clause of `getIpStats`: `o."data"->>'reqIp' LIKE :ip`. -/
def ipStatsWhere (dur : String → ℚ) (now : ℚ) (ip : String)
    (interval : Option String) (r : OrderRow) : Bool :=
  (match r.reqIp with
   | some v => sqlLike v ip
   | none => false)
    && r.deletedAt == none && r.pmType == some "creditcard"
    && rowInInterval dur now interval r

/-- The statistics query issued by `getIpStats`. -/
def getIpStats (dur : String → ℚ) (now : ℚ) (table : List OrderRow)
    (ip : String) (interval : Option String) : FraudStats :=
  baseStats (table.filter (ipStatsWhere dur now ip interval))

/-- The `WHERE` clause of `getCreditCardStats`; the replacements stringify
`expYear` and `expMonth` with `toString`. -/
def creditCardStatsWhere (dur : String → ℚ) (now : ℚ) (name : String)
    (expYear expMonth : Nat) (country : String) (interval : Option String)
    (r : OrderRow) : Bool :=
  r.pmType == some "creditcard" && r.deletedAt == none
    && r.pmName == some name && r.pmExpYear == some (Nat.repr expYear)
    && r.pmExpMonth == some (Nat.repr expMonth)
    && r.pmCountry == some country && rowInInterval dur now interval r

/-- The statistics query issued by `getCreditCardStats`. -/
def getCreditCardStats (dur : String → ℚ) (now : ℚ) (table : List OrderRow)
    (name : String) (expYear expMonth : Nat) (country : String)
    (interval : Option String) : FraudStats :=
  baseStats
    (table.filter (creditCardStatsWhere dur now name expYear expMonth country interval))

/-- Decimal character list produced by `Nat.toDigitsCore`, most significant
digit first, described through `Nat.digits`. -/
def decRepr (n : Nat) : List Char :=
  if n = 0 then ['0'] else (Nat.digits 10 n).reverse.map Nat.digitChar

end Fraud

namespace Fraud

lemma digitChar_inj_of_lt_ten : ∀ d1 d2 : Fin 10,
    Nat.digitChar d1.val = Nat.digitChar d2.val → d1 = d2 := by decide

lemma map_digitChar_inj : ∀ l1 l2 : List Nat, (∀ x ∈ l1, x < 10) →
    (∀ x ∈ l2, x < 10) → l1.map Nat.digitChar = l2.map Nat.digitChar →
    l1 = l2 := by
  intro l1
  induction l1 with
  | nil =>
    intro l2 _ _ h
    cases l2 with
    | nil => rfl
    | cons b t => simp at h
  | cons a t ih =>
    intro l2 h1 h2 h
    cases l2 with
    | nil => simp at h
    | cons b t2 =>
      simp only [List.map_cons, List.cons.injEq] at h
      have ha : a < 10 := h1 a (List.mem_cons_self a t)
      have hb : b < 10 := h2 b (List.mem_cons_self b t2)
      have hfin : (⟨a, ha⟩ : Fin 10) = ⟨b, hb⟩ :=
        digitChar_inj_of_lt_ten ⟨a, ha⟩ ⟨b, hb⟩ h.1
      have hab : a = b := congrArg Fin.val hfin
      rw [hab]
      exact congrArg (b :: ·)
        (ih t2 (fun x hx => h1 x (List.mem_cons_of_mem a hx))
          (fun x hx => h2 x (List.mem_cons_of_mem b hx)) h.2)

lemma toDigitsCore_eq_decRepr :
    ∀ (fuel n : Nat) (ds : List Char), n < fuel →
      Nat.toDigitsCore 10 fuel n ds = decRepr n ++ ds := by
  intro fuel
  induction fuel with
  | zero => intro n ds h; exact absurd h (Nat.not_lt_zero n)
  | succ fuel ih =>
    intro n ds h
    by_cases h10 : n / 10 = 0
    · have step : Nat.toDigitsCore 10 (fuel + 1) n ds
          = Nat.digitChar (n % 10) :: ds := by
        simp [Nat.toDigitsCore, h10]
      rw [step]
      by_cases hn : n = 0
      · subst hn
        simp only [decRepr, if_pos rfl]
        rfl
      · have hlt : n < 10 := (Nat.div_eq_zero_iff (by norm_num)).mp h10
        have hd : Nat.digits 10 n = [n] := by
          rw [Nat.digits_def' (by norm_num : (1:ℕ) < 10) (Nat.pos_of_ne_zero hn),
            Nat.mod_eq_of_lt hlt, h10]
          simp
        simp [decRepr, hn, hd, Nat.mod_eq_of_lt hlt]
    · have step : Nat.toDigitsCore 10 (fuel + 1) n ds
          = Nat.toDigitsCore 10 fuel (n / 10) (Nat.digitChar (n % 10) :: ds) := by
        simp [Nat.toDigitsCore, h10]
      have hn : n ≠ 0 := by
        intro h0
        rw [h0] at h10
        simp at h10
      have hfuel : n / 10 < fuel := by
        have hlt : n / 10 < n := Nat.div_lt_self (Nat.pos_of_ne_zero hn) (by norm_num)
        omega
      rw [step, ih (n / 10) _ hfuel]
      have hd : Nat.digits 10 n = n % 10 :: Nat.digits 10 (n / 10) :=
        Nat.digits_def' (by norm_num : (1:ℕ) < 10) (Nat.pos_of_ne_zero hn)
      simp [decRepr, hn, h10, hd]

lemma repr_data (n : Nat) : (Nat.repr n).data = decRepr n := by
  show (List.asString (Nat.toDigits 10 n)).data = decRepr n
  rw [Nat.toDigits, toDigitsCore_eq_decRepr (n + 1) n [] (Nat.lt_succ_self n)]
  simp [List.asString]

lemma decRepr_eq_zero_list {n : Nat} (h : decRepr n = ['0']) : n = 0 := by
  by_cases hn : n = 0
  · exact hn
  · exfalso
    rw [decRepr, if_neg hn] at h
    cases hd : (Nat.digits 10 n).reverse with
    | nil =>
      rw [hd] at h
      simp at h
    | cons d t =>
      rw [hd] at h
      simp only [List.map_cons, List.cons.injEq] at h
      have hmem : d ∈ Nat.digits 10 n := by
        have : d ∈ (Nat.digits 10 n).reverse := by rw [hd]; exact List.mem_cons_self d t
        exact List.mem_reverse.mp this
      have hdlt : d < 10 := Nat.digits_lt_base (by norm_num) hmem
      have hd0 : d = 0 := by
        have hfin : (⟨d, hdlt⟩ : Fin 10) = ⟨0, by norm_num⟩ :=
          digitChar_inj_of_lt_ten ⟨d, hdlt⟩ ⟨0, by norm_num⟩ (by simpa using h.1)
        exact congrArg Fin.val hfin
      have ht : t = [] := by simpa using h.2
      have hdig : Nat.digits 10 n = [0] := by
        have : (Nat.digits 10 n).reverse = [0] := by rw [hd, hd0, ht]
        have h2 := congrArg List.reverse this
        simpa using h2
      have := Nat.ofDigits_digits 10 n
      rw [hdig] at this
      simp [Nat.ofDigits] at this
      exact hn this.symm

lemma decRepr_inj {m n : Nat} (h : decRepr m = decRepr n) : m = n := by
  by_cases hm : m = 0 <;> by_cases hn : n = 0
  · rw [hm, hn]
  · subst hm
    have h0 : decRepr n = ['0'] := by rw [← h]; simp [decRepr]
    exact (decRepr_eq_zero_list h0).symm
  · subst hn
    exact decRepr_eq_zero_list h
  · rw [decRepr, if_neg hm, decRepr, if_neg hn] at h
    have hrev : (Nat.digits 10 m).reverse = (Nat.digits 10 n).reverse :=
      map_digitChar_inj _ _
        (fun x hx => Nat.digits_lt_base (by norm_num) (List.mem_reverse.mp hx))
        (fun x hx => Nat.digits_lt_base (by norm_num) (List.mem_reverse.mp hx)) h
    have hdig : Nat.digits 10 m = Nat.digits 10 n :=
      List.reverse_injective hrev
    have h1 := Nat.ofDigits_digits 10 m
    have h2 := Nat.ofDigits_digits 10 n
    rw [← h1, ← h2, hdig]

lemma natRepr_inj {m n : Nat} (h : Nat.repr m = Nat.repr n) : m = n :=
  decRepr_inj (by rw [← repr_data, ← repr_data, h])

lemma str_append_cancel_left {s t u : String} (h : s ++ t = s ++ u) : t = u := by
  have h2 := congrArg String.data h
  simp only [String.data_append] at h2
  exact String.ext (List.append_cancel_left h2)

lemma str_append_cancel_right {s t u : String} (h : s ++ u = t ++ u) : s = t := by
  have h2 := congrArg String.data h
  simp only [String.data_append] at h2
  exact String.ext (List.append_cancel_right h2)

lemma validateStat_precheck_rejects (enforce : Bool) (store : SuspendedStore)
    (cr : Bool) (oracle : StatOracle) (args : List JSVal)
    (rules : List LimitRule) (msg : String) (opts : VStatOptions)
    (e : FraudError) (h : (runPrecheck enforce store opts).1 = some e) :
    validateStat enforce store cr oracle args rules msg opts =
      { storeConsulted := (runPrecheck enforce store opts).2, statCalls := [],
        warnings := [], errorLogs := [], onFailCalledWith := none,
        storeWrites := [], outcome := Except.error e } := by
  simp [validateStat, h]

lemma validateStat_pass (enforce : Bool) (store : SuspendedStore) (cr : Bool)
    (oracle : StatOracle) (args : List JSVal) (rules : List LimitRule)
    (msg : String) (opts : VStatOptions)
    (hpre : (runPrecheck enforce store opts).1 = none)
    (hfind : (runAssertLimits oracle args rules).find? entryViolated = none) :
    validateStat enforce store cr oracle args rules msg opts =
      { storeConsulted := (runPrecheck enforce store opts).2,
        statCalls := (runAssertLimits oracle args rules).map (·.1),
        warnings := [], errorLogs := [], onFailCalledWith := none,
        storeWrites := [], outcome := Except.ok () } := by
  simp [validateStat, hpre, hfind]

lemma validateStat_fail_handler (enforce : Bool) (store : SuspendedStore)
    (cr : Bool) (oracle : StatOracle) (args : List JSVal)
    (rules : List LimitRule) (msg : String) (opts : VStatOptions)
    (entry : List JSVal × FraudStats × LimitRule) (b : Bool)
    (hpre : (runPrecheck enforce store opts).1 = none)
    (hfind : (runAssertLimits oracle args rules).find? entryViolated = some entry)
    (hof : opts.onFail = some b) :
    validateStat enforce store cr oracle args rules msg opts =
      { storeConsulted := (runPrecheck enforce store opts).2,
        statCalls := (runAssertLimits oracle args rules).map (·.1),
        warnings := [validationMessage msg entry.2.1 entry.2.2],
        errorLogs := if b then ["suspension write failed"] else [],
        onFailCalledWith := some (FraudError.validationFailed
          (validationMessage msg entry.2.1 entry.2.2)),
        storeWrites := [],
        outcome := if enforce then
          Except.error (FraudError.validationFailed
            (validationMessage msg entry.2.1 entry.2.2))
          else Except.ok () } := by
  simp [validateStat, hpre, hfind, hof]

lemma validateStat_fail_default (enforce : Bool) (store : SuspendedStore)
    (cr : Bool) (oracle : StatOracle) (args : List JSVal)
    (rules : List LimitRule) (msg : String) (opts : VStatOptions)
    (entry : List JSVal × FraudStats × LimitRule)
    (hpre : (runPrecheck enforce store opts).1 = none)
    (hfind : (runAssertLimits oracle args rules).find? entryViolated = some entry)
    (hof : opts.onFail = none) :
    validateStat enforce store cr oracle args rules msg opts =
      { storeConsulted := (runPrecheck enforce store opts).2,
        statCalls := (runAssertLimits oracle args rules).map (·.1),
        warnings := [validationMessage msg entry.2.1 entry.2.2],
        errorLogs := if cr then ["suspension write failed"] else [],
        onFailCalledWith := none,
        storeWrites := [{ rtype := opts.assetParams.map (·.type),
                          rfingerprint := opts.assetParams.map (·.fingerprint),
                          reason := validationMessage msg entry.2.1 entry.2.2 }],
        outcome := if enforce then
          Except.error (FraudError.validationFailed
            (validationMessage msg entry.2.1 entry.2.2))
          else Except.ok () } := by
  simp [validateStat, hpre, hfind, hof]

lemma find?_none_iff_any_false {l : List (List JSVal × FraudStats × LimitRule)} :
    l.find? entryViolated = none ↔ l.any entryViolated = false := by
  simp [List.find?_eq_none, List.any_eq_false]

end Fraud

namespace Fraud

/-- C1: for every stats row and limit rule, the rule is a violation iff the
order count, error rate and payment-method rate all simultaneously meet or
exceed the rule's limits; and, whenever the precheck passes, a check fails
overall iff some rule of its configured list is violated — in particular
`validateStat` with an empty rule list never fails. -/
theorem C1_rule_and_check_semantics :
    (∀ (s : FraudStats) (r : LimitRule),
        ruleViolated s r = true ↔
          (s.numberOfOrders ≥ r.maxOrders ∧ s.errorRate ≥ r.maxErrorRate ∧
            s.paymentMethodRate ≥ r.maxPaymentMethodRate)) ∧
    (∀ (enforce : Bool) (store : SuspendedStore) (cr : Bool)
        (oracle : StatOracle) (args : List JSVal) (rules : List LimitRule)
        (msg : String) (opts : VStatOptions),
        (runPrecheck enforce store opts).1 = none →
          (((validateStat enforce store cr oracle args rules msg opts).warnings ≠ []
              ↔ anyViolation oracle args rules = true) ∧
            (enforce = true →
              ((validateStat enforce store cr oracle args rules msg opts).outcome
                  = Except.ok () ↔ anyViolation oracle args rules = false)))) ∧
    (∀ (enforce : Bool) (store : SuspendedStore) (cr : Bool)
        (oracle : StatOracle) (args : List JSVal) (msg : String)
        (opts : VStatOptions),
        (runPrecheck enforce store opts).1 = none →
          ((validateStat enforce store cr oracle args [] msg opts).outcome
              = Except.ok () ∧
            (validateStat enforce store cr oracle args [] msg opts).warnings = [])) := by
  refine ⟨?_, ?_, ?_⟩
  · intro s r
    simp [ruleViolated, ruleLimits, statArray, List.enum, List.enumFrom,
      List.all, ge_iff_le, and_assoc]
  · intro enforce store cr oracle args rules msg opts hpre
    cases hfind : (runAssertLimits oracle args rules).find? entryViolated with
    | none =>
      have hany : anyViolation oracle args rules = false :=
        find?_none_iff_any_false.mp hfind
      rw [validateStat_pass enforce store cr oracle args rules msg opts hpre hfind]
      simp [hany]
    | some entry =>
      have hany : anyViolation oracle args rules = true := by
        rw [anyViolation, List.any_eq_true]
        have hmem := List.mem_of_find?_eq_some hfind
        have hp := List.find?_some hfind
        exact ⟨entry, hmem, hp⟩
      cases hof : opts.onFail with
      | some b =>
        rw [validateStat_fail_handler enforce store cr oracle args rules msg
          opts entry b hpre hfind hof]
        refine ⟨by simp [hany], ?_⟩
        intro he
        subst he
        simp [hany]
      | none =>
        rw [validateStat_fail_default enforce store cr oracle args rules msg
          opts entry hpre hfind hof]
        refine ⟨by simp [hany], ?_⟩
        intro he
        subst he
        simp [hany]
  · intro enforce store cr oracle args msg opts hpre
    have hfind : (runAssertLimits oracle args []).find? entryViolated = none := by
      simp [runAssertLimits]
    rw [validateStat_pass enforce store cr oracle args [] msg opts hpre hfind]
    exact ⟨rfl, rfl⟩

/-- Witness for C1 at concrete inputs. -/
theorem C1_witness :
    (ruleViolated ⟨1, 7, 1⟩ ⟨"30 days", 5, 1, 1⟩ = true) ∧
    (validateStat true [] false (fun _ _ => ⟨1, 7, 1⟩) [JSVal.vStr "1.2.3.4"]
        [⟨"30 days", 5, 1, 1⟩] "m" ⟨none, none, none⟩).outcome ≠ Except.ok () ∧
    (validateStat true [] false (fun _ _ => ⟨1, 7, 1⟩) [JSVal.vStr "1.2.3.4"]
        [] "m" ⟨none, none, none⟩).outcome = Except.ok () := by
  have h1 := (C1_rule_and_check_semantics.1 ⟨1, 7, 1⟩ ⟨"30 days", 5, 1, 1⟩).mpr
    (by norm_num)
  have h2 := (C1_rule_and_check_semantics.2.1 true [] false
    (fun _ _ => ⟨1, 7, 1⟩) [JSVal.vStr "1.2.3.4"] [⟨"30 days", 5, 1, 1⟩] "m"
    ⟨none, none, none⟩ rfl).2 rfl
  have h3 := (C1_rule_and_check_semantics.2.2 true [] false
    (fun _ _ => ⟨1, 7, 1⟩) [JSVal.vStr "1.2.3.4"] "m" ⟨none, none, none⟩ rfl).1
  refine ⟨h1, ?_, h3⟩
  intro hok
  have hfalse := h2.mp hok
  have htrue : anyViolation (fun _ _ => ⟨1, 7, 1⟩) [JSVal.vStr "1.2.3.4"]
      [⟨"30 days", 5, 1, 1⟩] = true := by decide
  rw [htrue] at hfalse
  exact Bool.noConfusion hfalse

/-- C2: evaluation of the checker at a two-rule configuration shows the
shared-array bug: `args.push(interval)` mutates the one `args` array closed
over by every `assertLimit`, so the first statistics call receives
`(subject, "30 days")` but the second receives
`(subject, "30 days", "1 hour")` — its `interval` parameter (the second
argument) is the FIRST rule's interval, not its own, and the claim fails. -/
theorem C2_shared_args_bug :
    ((runAssertLimits (fun _ _ => ⟨0, 0, 0⟩) [JSVal.vStr "1.2.3.4"]
        [⟨"30 days", 100, 100, 100⟩, ⟨"1 hour", 100, 100, 100⟩]).map (·.1))
      = [[JSVal.vStr "1.2.3.4", JSVal.vStr "30 days"],
         [JSVal.vStr "1.2.3.4", JSVal.vStr "30 days", JSVal.vStr "1 hour"]] ∧
    ((runAssertLimits (fun _ _ => ⟨0, 0, 0⟩) [JSVal.vStr "1.2.3.4"]
        [⟨"30 days", 100, 100, 100⟩, ⟨"1 hour", 100, 100, 100⟩]).map
      (fun e => e.1[1]?))
      = [some (JSVal.vStr "30 days"), some (JSVal.vStr "30 days")] := by
  exact ⟨rfl, rfl⟩

/-- C3: with enforcement enabled, a check supplied with asset parameters
whose (type, fingerprint) pair is already in the suspended-asset store
rejects immediately: the store is consulted, no statistics invocation
happens, and the outcome is a rejection. -/
theorem C3_suspended_short_circuit (store : SuspendedStore) (cr : Bool)
    (oracle : StatOracle) (args : List JSVal) (rules : List LimitRule)
    (msg : String) (opts : VStatOptions) (ap : AssetParams)
    (hap : opts.assetParams = some ap) (hpc : opts.preCheck = none)
    (hmem : (ap.type, ap.fingerprint) ∈ store) :
    (validateStat true store cr oracle args rules msg opts).statCalls = [] ∧
    (validateStat true store cr oracle args rules msg opts).outcome
      = Except.error (FraudError.suspendedAsset (some ap)) ∧
    (validateStat true store cr oracle args rules msg opts).storeConsulted = true := by
  have hpre : runPrecheck true store opts
      = (some (FraudError.suspendedAsset (some ap)), true) := by
    simp [runPrecheck, hap, hpc, assertAssetIsNotSuspended, hmem]
  rw [validateStat_precheck_rejects true store cr oracle args rules msg opts
    (FraudError.suspendedAsset (some ap)) (by rw [hpre])]
  exact ⟨rfl, rfl, by rw [hpre]⟩

/-- Witness for C3 at concrete inputs. -/
theorem C3_witness :
    (validateStat true [(AssetType.IP, "9.9.9.9")] false (fun _ _ => ⟨0, 0, 0⟩)
        [JSVal.vStr "9.9.9.9"] [⟨"30 days", 5, 1, 1⟩] "m"
        ⟨none, none, some ⟨AssetType.IP, "9.9.9.9"⟩⟩).statCalls = [] ∧
    (validateStat true [(AssetType.IP, "9.9.9.9")] false (fun _ _ => ⟨0, 0, 0⟩)
        [JSVal.vStr "9.9.9.9"] [⟨"30 days", 5, 1, 1⟩] "m"
        ⟨none, none, some ⟨AssetType.IP, "9.9.9.9"⟩⟩).outcome
      = Except.error (FraudError.suspendedAsset (some ⟨AssetType.IP, "9.9.9.9"⟩)) := by
  have h := C3_suspended_short_circuit [(AssetType.IP, "9.9.9.9")] false
    (fun _ _ => ⟨0, 0, 0⟩) [JSVal.vStr "9.9.9.9"] [⟨"30 days", 5, 1, 1⟩] "m"
    ⟨none, none, some ⟨AssetType.IP, "9.9.9.9"⟩⟩ ⟨AssetType.IP, "9.9.9.9"⟩
    rfl rfl (by decide)
  exact ⟨h.1, h.2.1⟩

lemma find?_some_of_any {l : List (List JSVal × FraudStats × LimitRule)}
    (h : l.any entryViolated = true) :
    ∃ e, l.find? entryViolated = some e := by
  rw [List.any_eq_true] at h
  obtain ⟨e, hmem, hp⟩ := h
  exact Option.isSome_iff_exists.mp (List.find?_isSome.mpr ⟨e, hmem, hp⟩)

/-- C4: when the statistics violate at least one rule and enforcement is
disabled, `validateStat` fulfills, a warning is logged, and the failure
handler runs — the default handler writes a suspension record, a
caller-supplied one is invoked with the error; with enforcement enabled the
same violation is propagated as the blocking `ValidationFailed` error. -/
theorem C4_log_only_mode (store : SuspendedStore) (cr : Bool)
    (oracle : StatOracle) (args : List JSVal) (rules : List LimitRule)
    (msg : String) (opts : VStatOptions)
    (hviol : anyViolation oracle args rules = true) :
    ((validateStat false store cr oracle args rules msg opts).outcome
        = Except.ok () ∧
      (validateStat false store cr oracle args rules msg opts).warnings ≠ [] ∧
      ((validateStat false store cr oracle args rules msg opts).storeWrites ≠ [] ∨
        (validateStat false store cr oracle args rules msg opts).onFailCalledWith.isSome
          = true)) ∧
    ((runPrecheck true store opts).1 = none →
      ∃ m, (validateStat true store cr oracle args rules msg opts).outcome
        = Except.error (FraudError.validationFailed m)) := by
  obtain ⟨entry, hfind⟩ := find?_some_of_any hviol
  have hpre0 : (runPrecheck false store opts).1 = none := by simp [runPrecheck]
  constructor
  · cases hof : opts.onFail with
    | some b =>
      rw [validateStat_fail_handler false store cr oracle args rules msg opts
        entry b hpre0 hfind hof]
      exact ⟨rfl, by simp, Or.inr rfl⟩
    | none =>
      rw [validateStat_fail_default false store cr oracle args rules msg opts
        entry hpre0 hfind hof]
      exact ⟨rfl, by simp, Or.inl (by simp)⟩
  · intro hpre1
    cases hof : opts.onFail with
    | some b =>
      rw [validateStat_fail_handler true store cr oracle args rules msg opts
        entry b hpre1 hfind hof]
      exact ⟨validationMessage msg entry.2.1 entry.2.2, rfl⟩
    | none =>
      rw [validateStat_fail_default true store cr oracle args rules msg opts
        entry hpre1 hfind hof]
      exact ⟨validationMessage msg entry.2.1 entry.2.2, rfl⟩

/-- Witness for C4 at concrete inputs. -/
theorem C4_witness :
    (validateStat false [] false (fun _ _ => ⟨1, 7, 1⟩) [JSVal.vStr "1.2.3.4"]
        [⟨"30 days", 5, 1, 1⟩] "m" ⟨none, none, none⟩).outcome = Except.ok () ∧
    (validateStat false [] false (fun _ _ => ⟨1, 7, 1⟩) [JSVal.vStr "1.2.3.4"]
        [⟨"30 days", 5, 1, 1⟩] "m" ⟨none, none, none⟩).warnings ≠ [] := by
  have h := C4_log_only_mode [] false (fun _ _ => ⟨1, 7, 1⟩)
    [JSVal.vStr "1.2.3.4"] [⟨"30 days", 5, 1, 1⟩] "m" ⟨none, none, none⟩
    (by decide)
  exact ⟨h.1.1, h.1.2.1⟩

/-- C5: when a caller-supplied `onFail` handler is present, a violating check
invokes it with the `ValidationFailed` error and performs no default
suspension write of its own: `validateStat` leaves the suspended-asset store
untouched. -/
theorem C5_custom_handler_overrides (enforce : Bool) (store : SuspendedStore)
    (cr : Bool) (oracle : StatOracle) (args : List JSVal)
    (rules : List LimitRule) (msg : String) (opts : VStatOptions) (b : Bool)
    (hof : opts.onFail = some b)
    (hpre : (runPrecheck enforce store opts).1 = none)
    (hviol : anyViolation oracle args rules = true) :
    ∃ m, (validateStat enforce store cr oracle args rules msg opts).onFailCalledWith
        = some (FraudError.validationFailed m) ∧
      (validateStat enforce store cr oracle args rules msg opts).storeWrites = [] := by
  obtain ⟨entry, hfind⟩ := find?_some_of_any hviol
  rw [validateStat_fail_handler enforce store cr oracle args rules msg opts
    entry b hpre hfind hof]
  exact ⟨validationMessage msg entry.2.1 entry.2.2, rfl, rfl⟩

/-- Witness for C5 at concrete inputs. -/
theorem C5_witness :
    ∃ m, (validateStat true [] false (fun _ _ => ⟨1, 7, 1⟩)
        [JSVal.vStr "1.2.3.4"] [⟨"30 days", 5, 1, 1⟩] "m"
        ⟨some false, none, none⟩).onFailCalledWith
        = some (FraudError.validationFailed m) ∧
      (validateStat true [] false (fun _ _ => ⟨1, 7, 1⟩)
        [JSVal.vStr "1.2.3.4"] [⟨"30 days", 5, 1, 1⟩] "m"
        ⟨some false, none, none⟩).storeWrites = [] :=
  C5_custom_handler_overrides true [] false (fun _ _ => ⟨1, 7, 1⟩)
    [JSVal.vStr "1.2.3.4"] [⟨"30 days", 5, 1, 1⟩] "m"
    ⟨some false, none, none⟩ false rfl rfl (by decide)

/-- C6: when the suspension write of a violating check fails — the
caller-supplied handler's promise rejects, or the default
`SuspendedAsset.create` rejects — the write failure is logged and the error
propagated under enforcement is still the original `ValidationFailed`. -/
theorem C6_write_failure_never_masks (store : SuspendedStore) (cr : Bool)
    (oracle : StatOracle) (args : List JSVal) (rules : List LimitRule)
    (msg : String) (opts : VStatOptions)
    (hpre : (runPrecheck true store opts).1 = none)
    (hviol : anyViolation oracle args rules = true)
    (hwf : opts.onFail = some true ∨ (opts.onFail = none ∧ cr = true)) :
    ∃ m, (validateStat true store cr oracle args rules msg opts).outcome
        = Except.error (FraudError.validationFailed m) ∧
      (validateStat true store cr oracle args rules msg opts).errorLogs ≠ [] := by
  obtain ⟨entry, hfind⟩ := find?_some_of_any hviol
  rcases hwf with h | ⟨h, hcr⟩
  · rw [validateStat_fail_handler true store cr oracle args rules msg opts
      entry true hpre hfind h]
    exact ⟨validationMessage msg entry.2.1 entry.2.2, rfl, by simp⟩
  · subst hcr
    rw [validateStat_fail_default true store true oracle args rules msg opts
      entry hpre hfind h]
    exact ⟨validationMessage msg entry.2.1 entry.2.2, rfl, by simp⟩

/-- Witness for C6 at concrete inputs (default write path rejecting). -/
theorem C6_witness :
    ∃ m, (validateStat true [] true (fun _ _ => ⟨1, 7, 1⟩)
        [JSVal.vStr "1.2.3.4"] [⟨"30 days", 5, 1, 1⟩] "m"
        ⟨none, none, none⟩).outcome
        = Except.error (FraudError.validationFailed m) ∧
      (validateStat true [] true (fun _ _ => ⟨1, 7, 1⟩)
        [JSVal.vStr "1.2.3.4"] [⟨"30 days", 5, 1, 1⟩] "m"
        ⟨none, none, none⟩).errorLogs ≠ [] :=
  C6_write_failure_never_masks [] true (fun _ _ => ⟨1, 7, 1⟩)
    [JSVal.vStr "1.2.3.4"] [⟨"30 days", 5, 1, 1⟩] "m" ⟨none, none, none⟩
    rfl (by decide) (Or.inr ⟨rfl, rfl⟩)

/-- C10: with enforcement disabled the precheck is skipped entirely: the
suspended-asset store is never consulted, the result does not depend on the
store's contents at all, and when the freshly computed statistics violate no
rule the check passes — one statistics invocation per configured rule is
still performed. -/
theorem C10_disabled_skips_precheck (store store2 : SuspendedStore)
    (cr : Bool) (oracle : StatOracle) (args : List JSVal)
    (rules : List LimitRule) (msg : String) (opts : VStatOptions) :
    (validateStat false store cr oracle args rules msg opts).storeConsulted
      = false ∧
    validateStat false store cr oracle args rules msg opts
      = validateStat false store2 cr oracle args rules msg opts ∧
    (anyViolation oracle args rules = false →
      ((validateStat false store cr oracle args rules msg opts).outcome
          = Except.ok () ∧
        (validateStat false store cr oracle args rules msg opts).statCalls
          = (runAssertLimits oracle args rules).map (·.1))) := by
  have hpre : runPrecheck false store opts = (none, false) := by
    simp [runPrecheck]
  have hpre2 : runPrecheck false store2 opts = (none, false) := by
    simp [runPrecheck]
  refine ⟨?_, ?_, ?_⟩
  · cases hfind : (runAssertLimits oracle args rules).find? entryViolated with
    | none =>
      rw [validateStat_pass false store cr oracle args rules msg opts
        (by rw [hpre]) hfind, hpre]
    | some entry =>
      cases hof : opts.onFail with
      | some b =>
        rw [validateStat_fail_handler false store cr oracle args rules msg opts
          entry b (by rw [hpre]) hfind hof, hpre]
      | none =>
        rw [validateStat_fail_default false store cr oracle args rules msg opts
          entry (by rw [hpre]) hfind hof, hpre]
  · show validateStat false store cr oracle args rules msg opts
      = validateStat false store2 cr oracle args rules msg opts
    unfold validateStat
    rw [hpre, hpre2]
  · intro hany
    have hfind : (runAssertLimits oracle args rules).find? entryViolated = none :=
      find?_none_iff_any_false.mpr hany
    rw [validateStat_pass false store cr oracle args rules msg opts
      (by rw [hpre]) hfind]
    exact ⟨rfl, rfl⟩

/-- Witness for C10 at concrete inputs: the asset is in the store, yet with
enforcement disabled the check recomputes stats and passes. -/
theorem C10_witness :
    (validateStat false [(AssetType.IP, "1.2.3.4")] false (fun _ _ => ⟨0, 0, 0⟩)
        [JSVal.vStr "1.2.3.4"] [⟨"30 days", 5, 1, 1⟩] "m"
        ⟨none, none, some ⟨AssetType.IP, "1.2.3.4"⟩⟩).storeConsulted = false ∧
    (validateStat false [(AssetType.IP, "1.2.3.4")] false (fun _ _ => ⟨0, 0, 0⟩)
        [JSVal.vStr "1.2.3.4"] [⟨"30 days", 5, 1, 1⟩] "m"
        ⟨none, none, some ⟨AssetType.IP, "1.2.3.4"⟩⟩).outcome = Except.ok () := by
  have h := C10_disabled_skips_precheck [(AssetType.IP, "1.2.3.4")] []
    false (fun _ _ => ⟨0, 0, 0⟩) [JSVal.vStr "1.2.3.4"] [⟨"30 days", 5, 1, 1⟩]
    "m" ⟨none, none, some ⟨AssetType.IP, "1.2.3.4"⟩⟩
  exact ⟨h.1, (h.2.2 (by decide)).1⟩

/-- C7: `orderFraudProtection` runs an IP check iff the request carries a
(truthy) client IP, a credit-card check iff the order's payment method
includes card details, a user check iff the request has an authenticated
actor, and an email check iff there is no authenticated actor and the order
carries a (truthy) guest email — so a user check and an email check are
never both run. -/
theorem C7_check_selection (req : RequestInput) (order : OrderInput) :
    ((∃ s, CheckKind.ipCheck s ∈ orderFraudProtectionChecks req order) ↔
      jsTruthyStr req.ip = true) ∧
    ((∃ pm, CheckKind.cardCheck pm ∈ orderFraudProtectionChecks req order) ↔
      ∃ pm, order.paymentMethod = some pm ∧ pm.creditCardInfo.isSome = true) ∧
    ((∃ u, CheckKind.userCheck u ∈ orderFraudProtectionChecks req order) ↔
      req.remoteUser.isSome = true) ∧
    ((∃ e, CheckKind.emailCheck e ∈ orderFraudProtectionChecks req order) ↔
      (req.remoteUser = none ∧
        ∃ gi, order.guestInfo = some gi ∧ jsTruthyStr gi.email = true)) ∧
    ¬((∃ u, CheckKind.userCheck u ∈ orderFraudProtectionChecks req order) ∧
      (∃ e, CheckKind.emailCheck e ∈ orderFraudProtectionChecks req order)) := by
  obtain ⟨ru, rip⟩ := req
  obtain ⟨gi, pm⟩ := order
  rcases rip with _ | s <;>
    rcases ru with _ | u <;>
      rcases pm with _ | ⟨pt, pname, _ | cci⟩ <;>
        rcases gi with _ | ⟨_ | ge⟩ <;>
          simp only [orderFraudProtectionChecks] <;>
            (try split_ifs) <;>
              simp_all [jsTruthyStr]

/-- C8: the email fingerprint is the lowercased address, so two emails that
agree after lowercasing fingerprint identically; a card with no explicit
fingerprint token gets the join, separated by `-`, of name, brand, expMonth,
expYear, funding, so identical field values collide and changing any single
field changes the fingerprint. -/
theorem C8_deterministic_fingerprints :
    (∀ e : String, (checkEmailAssetParams e).fingerprint = jsToLower e) ∧
    (∀ e1 e2 : String, jsToLower e1 = jsToLower e2 →
      (checkEmailAssetParams e1).fingerprint
        = (checkEmailAssetParams e2).fingerprint) ∧
    (∀ (n b : String) (m y : Nat) (f : String),
      cardFingerprint n ⟨y, m, some b, none, some f⟩
        = jsJoinDash [n, b, Nat.repr m, Nat.repr y, f]) ∧
    (∀ (n1 n2 b : String) (m y : Nat) (f : String), n1 ≠ n2 →
      cardFingerprint n1 ⟨y, m, some b, none, some f⟩
        ≠ cardFingerprint n2 ⟨y, m, some b, none, some f⟩) ∧
    (∀ (n b1 b2 : String) (m y : Nat) (f : String), b1 ≠ b2 →
      cardFingerprint n ⟨y, m, some b1, none, some f⟩
        ≠ cardFingerprint n ⟨y, m, some b2, none, some f⟩) ∧
    (∀ (n b : String) (m1 m2 y : Nat) (f : String), m1 ≠ m2 →
      cardFingerprint n ⟨y, m1, some b, none, some f⟩
        ≠ cardFingerprint n ⟨y, m2, some b, none, some f⟩) ∧
    (∀ (n b : String) (m y1 y2 : Nat) (f : String), y1 ≠ y2 →
      cardFingerprint n ⟨y1, m, some b, none, some f⟩
        ≠ cardFingerprint n ⟨y2, m, some b, none, some f⟩) ∧
    (∀ (n b : String) (m y : Nat) (f1 f2 : String), f1 ≠ f2 →
      cardFingerprint n ⟨y, m, some b, none, some f1⟩
        ≠ cardFingerprint n ⟨y, m, some b, none, some f2⟩) := by
  refine ⟨fun e => rfl, fun e1 e2 h => h, fun n b m y f => rfl,
    ?_, ?_, ?_, ?_, ?_⟩
  · intro n1 n2 b m y f hne h
    apply hne
    have h2 : n1 ++ "-" ++ (b ++ "-" ++ (Nat.repr m ++ "-"
          ++ (Nat.repr y ++ "-" ++ f)))
        = n2 ++ "-" ++ (b ++ "-" ++ (Nat.repr m ++ "-"
          ++ (Nat.repr y ++ "-" ++ f))) := h
    exact str_append_cancel_right (str_append_cancel_right h2)
  · intro n b1 b2 m y f hne h
    apply hne
    have h2 : n ++ "-" ++ (b1 ++ "-" ++ (Nat.repr m ++ "-"
          ++ (Nat.repr y ++ "-" ++ f)))
        = n ++ "-" ++ (b2 ++ "-" ++ (Nat.repr m ++ "-"
          ++ (Nat.repr y ++ "-" ++ f))) := h
    exact str_append_cancel_right
      (str_append_cancel_right (str_append_cancel_left h2))
  · intro n b m1 m2 y f hne h
    apply hne
    have h2 : n ++ "-" ++ (b ++ "-" ++ (Nat.repr m1 ++ "-"
          ++ (Nat.repr y ++ "-" ++ f)))
        = n ++ "-" ++ (b ++ "-" ++ (Nat.repr m2 ++ "-"
          ++ (Nat.repr y ++ "-" ++ f))) := h
    exact natRepr_inj (str_append_cancel_right (str_append_cancel_right
      (str_append_cancel_left (str_append_cancel_left h2))))
  · intro n b m y1 y2 f hne h
    apply hne
    have h2 : n ++ "-" ++ (b ++ "-" ++ (Nat.repr m ++ "-"
          ++ (Nat.repr y1 ++ "-" ++ f)))
        = n ++ "-" ++ (b ++ "-" ++ (Nat.repr m ++ "-"
          ++ (Nat.repr y2 ++ "-" ++ f))) := h
    exact natRepr_inj (str_append_cancel_right (str_append_cancel_right
      (str_append_cancel_left (str_append_cancel_left
        (str_append_cancel_left h2)))))
  · intro n b m y f1 f2 hne h
    apply hne
    have h2 : n ++ "-" ++ (b ++ "-" ++ (Nat.repr m ++ "-"
          ++ (Nat.repr y ++ "-" ++ f1)))
        = n ++ "-" ++ (b ++ "-" ++ (Nat.repr m ++ "-"
          ++ (Nat.repr y ++ "-" ++ f2))) := h
    exact str_append_cancel_left (str_append_cancel_left
      (str_append_cancel_left (str_append_cancel_left h2)))

/-- Witness for C8 at concrete inputs: the spec's case-insensitive email
scenario, and a card whose expiry month alone changes. -/
theorem C8_witness :
    (checkEmailAssetParams "Test@Example.com").fingerprint
      = (checkEmailAssetParams "test@example.com").fingerprint ∧
    cardFingerprint "Jane Doe" ⟨2030, 3, some "visa", none, some "credit"⟩
      ≠ cardFingerprint "Jane Doe" ⟨2030, 4, some "visa", none, some "credit"⟩ := by
  refine ⟨C8_deterministic_fingerprints.2.1 "Test@Example.com"
    "test@example.com" (by decide), ?_⟩
  exact C8_deterministic_fingerprints.2.2.2.2.2.1 "Jane Doe" "visa" 3 4 2030
    "credit" (by decide)

lemma baseStats_nil : baseStats [] = ⟨0, 0, 0⟩ := by
  simp [baseStats, sqlAvg, sqlCoalesce, sqlNullIf, sqlDivOpt, sqlRound5,
    countDistinct]
  norm_num

/-- C9: each statistics entry point returns the single zero-filled aggregate
row `{errorRate := 0, numberOfOrders := 0, paymentMethodRate := 0}` when no
order matches its `WHERE` clause; the `NULLIF`/`COALESCE` guards keep the
rates from being `NULL` despite the division by the order count. -/
theorem C9_zero_order_defaults (dur : String → ℚ) (now : ℚ)
    (table : List OrderRow) (userId : Nat) (email ip name country : String)
    (expYear expMonth : Nat) (interval : Option String) :
    (table.filter (userStatsWhere dur now userId interval) = [] →
      getUserStats dur now table userId interval = ⟨0, 0, 0⟩) ∧
    (table.filter (emailStatsWhere dur now email interval) = [] →
      getEmailStats dur now table email interval = ⟨0, 0, 0⟩) ∧
    (table.filter (ipStatsWhere dur now ip interval) = [] →
      getIpStats dur now table ip interval = ⟨0, 0, 0⟩) ∧
    (table.filter (creditCardStatsWhere dur now name expYear expMonth country interval) = [] →
      getCreditCardStats dur now table name expYear expMonth country interval
        = ⟨0, 0, 0⟩) := by
  refine ⟨fun h => ?_, fun h => ?_, fun h => ?_, fun h => ?_⟩
  · rw [getUserStats, h]
    exact baseStats_nil
  · rw [getEmailStats, h]
    exact baseStats_nil
  · rw [getIpStats, h]
    exact baseStats_nil
  · rw [getCreditCardStats, h]
    exact baseStats_nil

/-- Witness for C9 on the empty orders table. -/
theorem C9_witness :
    getUserStats (fun _ => 0) 0 [] 7 none = ⟨0, 0, 0⟩ ∧
    getEmailStats (fun _ => 0) 0 [] "x@y.z" none = ⟨0, 0, 0⟩ ∧
    getIpStats (fun _ => 0) 0 [] "1.2.3.4" none = ⟨0, 0, 0⟩ ∧
    getCreditCardStats (fun _ => 0) 0 [] "Jane" 2030 3 "US" none = ⟨0, 0, 0⟩ := by
  have h := C9_zero_order_defaults (fun _ => 0) 0 [] 7 "x@y.z" "1.2.3.4"
    "Jane" "US" 2030 3 none
  exact ⟨h.1 rfl, h.2.1 rfl, h.2.2.1 rfl, h.2.2.2 rfl⟩

end Fraud
